import Mathlib

/-!
Shallow embedding of the kwealth agents pipeline
(src/config.py, src/agents/schemas.py, src/agents/scout.py,
src/agents/analyst.py, src/agents/synthesizer.py).

Python floats are modelled as rationals, exceptions as `Except`,
the yfinance `info` dict as an association list over a small value
type capturing Python truthiness, and the LLM backend response as an
explicit `Option`-typed argument (the `response.parsed` value).
-/

namespace KWealth

/-- A Python value as it occurs in the yfinance `info` payload:
`None`, a number, or a string.  Pydantic coercion of numeric strings
to floats is not modelled; a string where a number is required maps
to a type error. -/
inductive PyVal where
  | none
  | num (q : ℚ)
  | str (s : String)
deriving DecidableEq, Repr

/-- Python truthiness for the modelled values: `None` is falsy,
a number is truthy iff nonzero, a string is truthy iff nonempty. -/
def PyVal.truthy : PyVal → Bool
  | .none => false
  | .num q => q ≠ 0
  | .str s => s ≠ ""

/-- Python `str.upper()`: upper-case each character. -/
def pyUpper (s : String) : String := ⟨s.data.map Char.toUpper⟩

/-- Python `a or b`: `a` if truthy, else `b`. -/
def pyOr (a b : PyVal) : PyVal :=
  if a.truthy then a else b

/-- The `info` payload: a finite string-keyed dictionary. -/
def Info := List (String × PyVal)

instance : DecidableEq Info := by
  unfold Info
  infer_instance

/-- Python `info.get(k)` with default `None`: an absent key and a key
stored as `None` both yield `None`. -/
def Info.get (info : Info) (k : String) : PyVal :=
  match List.lookup k info with
  | Option.some v => v
  | Option.none => PyVal.none

instance {ε α : Type} [DecidableEq ε] [DecidableEq α] :
    DecidableEq (Except ε α) := fun a b => by
  cases a <;> cases b
  case error.error e f => exact decidable_of_iff (e = f) (by simp)
  case ok.ok x y => exact decidable_of_iff (x = y) (by simp)
  all_goals exact Decidable.isFalse (fun h => Except.noConfusion h)

/-- `config.py`: `MAX_HEADLINES = 5`. -/
def MAX_HEADLINES : Nat := 5

/-- schemas.py: `FinancialMetrics`. -/
structure FinancialMetrics where
  ticker : String
  company_name : String
  current_price : ℚ
  pe_ratio : Option ℚ := Option.none
  forward_pe : Option ℚ := Option.none
  price_to_book : Option ℚ := Option.none
  debt_to_equity : Option ℚ := Option.none
  free_cash_flow : Option ℚ := Option.none
  market_cap : Option ℚ := Option.none
  dividend_yield : Option ℚ := Option.none
  fifty_two_week_high : Option ℚ := Option.none
  fifty_two_week_low : Option ℚ := Option.none
  sector : Option String := Option.none
  industry : Option String := Option.none
deriving DecidableEq, Repr

/-- schemas.py: `NewsHeadline`. -/
structure NewsHeadline where
  title : String
  publisher : String
  link : Option String := Option.none
deriving DecidableEq, Repr

/-- schemas.py: `ScoutReport`. -/
structure ScoutReport where
  metrics : FinancialMetrics
  headlines : List NewsHeadline
  fetch_timestamp : String
deriving DecidableEq, Repr

/-- The `Literal["bear", "bull"]` perspective tag. -/
inductive Perspective where
  | bear
  | bull
deriving DecidableEq, Repr

/-- The recommendation enumeration of schemas.py. -/
inductive Recommendation where
  | STRONG_BUY
  | BUY
  | HOLD
  | SELL
  | STRONG_SELL
deriving DecidableEq, Repr

/-- schemas.py: `AnalystMemo` (raw record; pydantic field constraints
are the separate predicate `AnalystMemo.Valid`). -/
structure AnalystMemo where
  perspective : Perspective
  ticker : String
  summary : String
  key_points : List String
  risk_reward_assessment : String
  confidence_in_thesis : ℚ
deriving DecidableEq, Repr

/-- The pydantic field constraints of `AnalystMemo`:
`summary` ≤ 500 chars, `key_points` a list of 3 to 5 items,
`risk_reward_assessment` ≤ 300 chars, `confidence_in_thesis` in [0, 1].
The item type of `key_points` is plain `str`: no per-item constraint. -/
def AnalystMemo.Valid (m : AnalystMemo) : Prop :=
  m.summary.length ≤ 500 ∧
  3 ≤ m.key_points.length ∧ m.key_points.length ≤ 5 ∧
  m.risk_reward_assessment.length ≤ 300 ∧
  0 ≤ m.confidence_in_thesis ∧ m.confidence_in_thesis ≤ 1

instance (m : AnalystMemo) : Decidable m.Valid := by
  unfold AnalystMemo.Valid
  infer_instance

/-- Pydantic construction of an `AnalystMemo`: validation failure on
any field is a hard construction failure. -/
def mkAnalystMemo (m : AnalystMemo) : Except String AnalystMemo :=
  if m.Valid then Except.ok m
  else Except.error "ValidationError: AnalystMemo"

/-- schemas.py: `SynthesizerOutput` (raw record; constraints in
`SynthesizerOutput.Valid`). -/
structure SynthesizerOutput where
  ticker : String
  recommendation : Recommendation
  confidence_score : ℚ
  synthesis_summary : String
  key_caveats : List String
deriving DecidableEq, Repr

/-- The pydantic field constraints of `SynthesizerOutput`:
`confidence_score` in [0, 1], `synthesis_summary` ≤ 600 chars,
`key_caveats` a list of 1 to 5 items of plain `str`. -/
def SynthesizerOutput.Valid (s : SynthesizerOutput) : Prop :=
  0 ≤ s.confidence_score ∧ s.confidence_score ≤ 1 ∧
  s.synthesis_summary.length ≤ 600 ∧
  1 ≤ s.key_caveats.length ∧ s.key_caveats.length ≤ 5

instance (s : SynthesizerOutput) : Decidable s.Valid := by
  unfold SynthesizerOutput.Valid
  infer_instance

/-- Pydantic construction of a `SynthesizerOutput`. -/
def mkSynthesizerOutput (s : SynthesizerOutput) : Except String SynthesizerOutput :=
  if s.Valid then Except.ok s
  else Except.error "ValidationError: SynthesizerOutput"

/-- schemas.py: `FinalRecommendation`. -/
structure FinalRecommendation where
  ticker : String
  recommendation : Recommendation
  confidence_score : ℚ
  synthesis_summary : String
  key_caveats : List String
  bull_memo : AnalystMemo
  bear_memo : AnalystMemo
deriving DecidableEq, Repr

/-- The pydantic field constraints of `FinalRecommendation`; the nested
memos are already-constructed model instances and are not re-validated. -/
def FinalRecommendation.Valid (f : FinalRecommendation) : Prop :=
  0 ≤ f.confidence_score ∧ f.confidence_score ≤ 1 ∧
  f.synthesis_summary.length ≤ 600 ∧
  1 ≤ f.key_caveats.length ∧ f.key_caveats.length ≤ 5

instance (f : FinalRecommendation) : Decidable f.Valid := by
  unfold FinalRecommendation.Valid
  infer_instance

/-- Pydantic construction of a `FinalRecommendation`. -/
def mkFinalRecommendation (f : FinalRecommendation) : Except String FinalRecommendation :=
  if f.Valid then Except.ok f
  else Except.error "ValidationError: FinalRecommendation"

/-! ## Scout (src/agents/scout.py) -/

/-- The errors `fetch_scout_report` can raise: the two `ValueError`s of
scout.py, and a type/validation error standing for the crash a
non-numeric (string) value in a numeric slot would cause. -/
inductive FetchError where
  | invalidTicker (t : String)
  | noPrice (t : String)
  | typeError
deriving DecidableEq, Repr

/-- A raw news item from `stock.news`: a dictionary with optional
`title`, `publisher` and `link` keys (an absent key and a key stored
as `None` both model as `Option.none`). -/
structure RawNewsItem where
  title : Option String := Option.none
  publisher : Option String := Option.none
  link : Option String := Option.none
deriving DecidableEq, Repr

/-- Truthiness of `item.get("title")`: present and nonempty. -/
def RawNewsItem.titleTruthy (i : RawNewsItem) : Bool :=
  match i.title with
  | Option.some s => s ≠ ""
  | Option.none => false

/-- scout.py lines 60-69: take the first `maxH` raw items, drop items
without a truthy title, and build `NewsHeadline`s with the defaults of
`item.get("title", "")`, `item.get("publisher", "")`, `item.get("link")`. -/
def buildHeadlines (rawNews : List RawNewsItem) (maxH : Nat) : List NewsHeadline :=
  ((rawNews.take maxH).filter RawNewsItem.titleTruthy).map fun i =>
    { title := i.title.getD ""
      publisher := i.publisher.getD ""
      link := i.link }

/-- scout.py line 33: the price fallback chain
`info.get("currentPrice") or info.get("regularMarketPrice")`. -/
def price_fallback (info : Info) : PyVal :=
  pyOr (Info.get info "currentPrice") (Info.get info "regularMarketPrice")

/-- A value into a required-float slot of `FinancialMetrics`. -/
def reqNumField : PyVal → Except FetchError ℚ
  | PyVal.num q => Except.ok q
  | _ => Except.error FetchError.typeError

/-- A value into a `float | None` slot of `FinancialMetrics`. -/
def optNumField : PyVal → Except FetchError (Option ℚ)
  | PyVal.none => Except.ok Option.none
  | PyVal.num q => Except.ok (Option.some q)
  | PyVal.str _ => Except.error FetchError.typeError

/-- A value into a `str | None` slot of `FinancialMetrics`. -/
def optStrField : PyVal → Except FetchError (Option String)
  | PyVal.none => Except.ok Option.none
  | PyVal.str s => Except.ok (Option.some s)
  | PyVal.num _ => Except.error FetchError.typeError

/-- A value into a required-string slot of `FinancialMetrics`. -/
def reqStrField : PyVal → Except FetchError String
  | PyVal.str s => Except.ok s
  | _ => Except.error FetchError.typeError

/-- scout.py lines 39-40: `debt_to_equity_raw / 100 if
debt_to_equity_raw is not None else None` (a string raw value would
raise a `TypeError` at the division). -/
def debtToEquityField : PyVal → Except FetchError (Option ℚ)
  | PyVal.none => Except.ok Option.none
  | PyVal.num q => Except.ok (Option.some (q / 100))
  | PyVal.str _ => Except.error FetchError.typeError

/-- scout.py `fetch_scout_report`.  The external effects are passed in:
`info` is `stock.info`, `rawNews` is `stock.news or []`, and `now` is
`datetime.now().isoformat()`. -/
def fetch_scout_report (ticker : String) (info : Info)
    (rawNews : List RawNewsItem) (now : String) :
    Except FetchError ScoutReport := do
  if info = ([] : Info) ∨
      (Info.get info "regularMarketPrice" = PyVal.none ∧
       Info.get info "currentPrice" = PyVal.none) then
    throw (FetchError.invalidTicker ticker)
  let current_price := price_fallback info
  if current_price = PyVal.none then
    throw (FetchError.noPrice ticker)
  let cp ← reqNumField current_price
  let dte ← debtToEquityField (Info.get info "debtToEquity")
  let name ← reqStrField
    (pyOr (pyOr (Info.get info "longName") (Info.get info "shortName"))
      (PyVal.str (pyUpper ticker)))
  let pe ← optNumField (Info.get info "trailingPE")
  let fpe ← optNumField (Info.get info "forwardPE")
  let ptb ← optNumField (Info.get info "priceToBook")
  let fcf ← optNumField (Info.get info "freeCashflow")
  let mc ← optNumField (Info.get info "marketCap")
  let dy ← optNumField (Info.get info "dividendYield")
  let ftwh ← optNumField (Info.get info "fiftyTwoWeekHigh")
  let ftwl ← optNumField (Info.get info "fiftyTwoWeekLow")
  let sec ← optStrField (Info.get info "sector")
  let ind ← optStrField (Info.get info "industry")
  let metrics : FinancialMetrics :=
    { ticker := pyUpper ticker
      company_name := name
      current_price := cp
      pe_ratio := pe
      forward_pe := fpe
      price_to_book := ptb
      debt_to_equity := dte
      free_cash_flow := fcf
      market_cap := mc
      dividend_yield := dy
      fifty_two_week_high := ftwh
      fifty_two_week_low := ftwl
      sector := sec
      industry := ind }
  return { metrics := metrics
           headlines := buildHeadlines rawNews MAX_HEADLINES
           fetch_timestamp := now }

/-! ## Analyst (src/agents/analyst.py) -/

/-- The errors the Analyst and Synthesizer stages raise: a wrapped
transport failure or a structurally unparseable response. -/
inductive GenError where
  | apiCallFailed
  | invalidResponse
  | validationError
deriving DecidableEq, Repr

/-- analyst.py `_generate_memo`, with the backend response abstracted
as `parsed : Option AnalystMemo` (the `response.parsed` value;
`Option.none` models a response the schema parse could not produce a
value for).  After the parse, `perspective` and `ticker` are
unconditionally overwritten from the caller's arguments. -/
def generate_memo (report : ScoutReport) (perspective : Perspective)
    (parsed : Option AnalystMemo) : Except GenError AnalystMemo :=
  match parsed with
  | Option.none => Except.error GenError.invalidResponse
  | Option.some memo =>
      Except.ok { memo with
        perspective := perspective
        ticker := report.metrics.ticker }

/-- analyst.py `generate_bear_memo`. -/
def generate_bear_memo (report : ScoutReport)
    (parsed : Option AnalystMemo) : Except GenError AnalystMemo :=
  generate_memo report Perspective.bear parsed

/-- analyst.py `generate_bull_memo`. -/
def generate_bull_memo (report : ScoutReport)
    (parsed : Option AnalystMemo) : Except GenError AnalystMemo :=
  generate_memo report Perspective.bull parsed

/-! ## Synthesizer (src/agents/synthesizer.py) -/

/-- synthesizer.py `synthesize`, with the backend response abstracted
as `parsed : Option SynthesizerOutput`.  On success the
`FinalRecommendation` is composed from the model's fields plus the two
original memos verbatim; its pydantic construction re-validates the
plain fields (the nested memo instances are not re-validated). -/
def synthesize (bull bear : AnalystMemo) (metrics : FinancialMetrics)
    (parsed : Option SynthesizerOutput) :
    Except GenError FinalRecommendation :=
  match parsed with
  | Option.none => Except.error GenError.invalidResponse
  | Option.some s =>
      match mkFinalRecommendation
        { ticker := s.ticker
          recommendation := s.recommendation
          confidence_score := s.confidence_score
          synthesis_summary := s.synthesis_summary
          key_caveats := s.key_caveats
          bull_memo := bull
          bear_memo := bear } with
      | Except.ok f => Except.ok f
      | Except.error _ => Except.error GenError.validationError

/-! ## Shared helper lemmas and concrete fixtures -/

/-- Inversion for `Except` bind. -/
theorem except_bind_eq_ok {ε α β : Type} {x : Except ε α}
    {f : α → Except ε β} {b : β} :
    x >>= f = Except.ok b ↔
      ∃ a, x = Except.ok a ∧ f a = Except.ok b := by
  cases x <;> simp [Bind.bind, Except.bind]

/-- Inversion for a successful `fetch_scout_report`: on success the
report's fields are determined field by field from the payload. -/
theorem fetch_scout_report_ok {t : String} {info : Info}
    {rn : List RawNewsItem} {now : String} {r : ScoutReport}
    (h : fetch_scout_report t info rn now = Except.ok r) :
    r.metrics.ticker = pyUpper t ∧
    reqNumField (price_fallback info) = Except.ok r.metrics.current_price ∧
    debtToEquityField (Info.get info "debtToEquity") =
      Except.ok r.metrics.debt_to_equity ∧
    r.headlines = buildHeadlines rn MAX_HEADLINES ∧
    r.fetch_timestamp = now := by
  unfold fetch_scout_report at h
  simp only [throw, throwThe, MonadExceptOf.throw, pure, Except.pure] at h
  split at h
  · simp [except_bind_eq_ok] at h
  · split at h
    · simp [except_bind_eq_ok] at h
    · simp only [except_bind_eq_ok, Except.ok.injEq, exists_eq_left] at h
      obtain ⟨-, -, -, -, cp, hcp, dte, hdte, name, hname, pe, hpe, fpe,
        hfpe, ptb, hptb, fcf, hfcf, mc, hmc, dy, hdy, ftwh, hftwh, ftwl,
        hftwl, sec, hsec, ind, hind, hr⟩ := h
      subst hr
      exact ⟨rfl, hcp, hdte, rfl, rfl⟩

/-- When the initial validity check fires, `fetch_scout_report` raises
the invalid-ticker `ValueError`. -/
theorem fetch_scout_report_guard {t : String} {info : Info}
    {rn : List RawNewsItem} {now : String}
    (h : info = ([] : Info) ∨
      (Info.get info "regularMarketPrice" = PyVal.none ∧
       Info.get info "currentPrice" = PyVal.none)) :
    fetch_scout_report t info rn now =
      Except.error (FetchError.invalidTicker t) := by
  unfold fetch_scout_report
  simp only [throw, throwThe, MonadExceptOf.throw, pure, Except.pure]
  rw [if_pos h]
  rfl

/-- The price fallback picks `regularMarketPrice` when `currentPrice`
comes back as `None`. -/
theorem price_fallback_of_cp_none {info : Info} {q : ℚ}
    (h1 : Info.get info "currentPrice" = PyVal.none)
    (h2 : Info.get info "regularMarketPrice" = PyVal.num q) :
    price_fallback info = PyVal.num q := by
  simp [price_fallback, pyOr, h1, h2, PyVal.truthy]

/-- The price fallback picks a truthy `currentPrice`. -/
theorem price_fallback_of_cp_truthy {info : Info} {q : ℚ}
    (h1 : Info.get info "currentPrice" = PyVal.num q) (h2 : q ≠ 0) :
    price_fallback info = PyVal.num q := by
  simp [price_fallback, pyOr, h1, PyVal.truthy, h2]

/-! Concrete fixtures used by the witnesses. -/

def memoA : AnalystMemo :=
  { perspective := Perspective.bull
    ticker := "MSFT"
    summary := "Looks fine."
    key_points := ["moat", "cash", "margin"]
    risk_reward_assessment := "Balanced."
    confidence_in_thesis := 1/2 }

def memoB : AnalystMemo :=
  { perspective := Perspective.bear
    ticker := "MSFT"
    summary := "Looks risky."
    key_points := ["debt", "hype", "churn"]
    risk_reward_assessment := "Poor."
    confidence_in_thesis := 3/5 }

def infoA : Info :=
  [("currentPrice", PyVal.num 123), ("longName", PyVal.str "Apple Inc.")]

def reportUp : ScoutReport :=
  { metrics :=
      { ticker := "AAPL"
        company_name := "Apple Inc."
        current_price := 123 }
    headlines := []
    fetch_timestamp := "ts" }

/-! ## C1 and C2 -/

/-- C1: for every ScoutReport and backend response accepted by
`_generate_memo`, the memo's `perspective` equals the caller-requested
tag: `generate_bear_memo` always returns perspective bear and
`generate_bull_memo` always returns perspective bull, regardless of
what the backend produced. -/
theorem C1_perspective_integrity (report : ScoutReport)
    (parsed : Option AnalystMemo) (memo : AnalystMemo) :
    (generate_bear_memo report parsed = Except.ok memo →
      memo.perspective = Perspective.bear) ∧
    (generate_bull_memo report parsed = Except.ok memo →
      memo.perspective = Perspective.bull) := by
  cases parsed with
  | none =>
      exact ⟨fun h => Except.noConfusion h, fun h => Except.noConfusion h⟩
  | some m =>
      constructor <;> intro h <;> injection h with h <;> rw [← h]

theorem C1_perspective_integrity_witness :
    ({ memoA with perspective := Perspective.bear, ticker := "AAPL" } :
      AnalystMemo).perspective = Perspective.bear ∧
    ({ memoA with perspective := Perspective.bull, ticker := "AAPL" } :
      AnalystMemo).perspective = Perspective.bull :=
  ⟨(C1_perspective_integrity reportUp (Option.some memoA) _).1 rfl,
   (C1_perspective_integrity reportUp (Option.some memoA) _).2 rfl⟩

/-- C2: when `fetch_scout_report` succeeds, the report's ticker is the
upper-cased input string; and every memo `_generate_memo` returns
carries `ticker` equal to `report.metrics.ticker`, overwriting whatever
the backend returned. -/
theorem C2_ticker_normalization :
    (∀ (ticker now : String) (info : Info) (rawNews : List RawNewsItem)
        (r : ScoutReport),
      fetch_scout_report ticker info rawNews now = Except.ok r →
      r.metrics.ticker = pyUpper ticker) ∧
    (∀ (report : ScoutReport) (p : Perspective)
        (parsed : Option AnalystMemo) (memo : AnalystMemo),
      generate_memo report p parsed = Except.ok memo →
      memo.ticker = report.metrics.ticker) := by
  constructor
  · intro ticker now info rawNews r h
    exact (fetch_scout_report_ok h).1
  · intro report p parsed memo h
    cases parsed with
    | none => exact Except.noConfusion h
    | some m => injection h with h; rw [← h]

theorem C2_ticker_normalization_witness :
    reportUp.metrics.ticker = pyUpper "aapl" ∧
    ({ memoA with
        perspective := Perspective.bear
        ticker := reportUp.metrics.ticker } : AnalystMemo).ticker =
      reportUp.metrics.ticker :=
  ⟨C2_ticker_normalization.1 "aapl" "ts" infoA [] reportUp rfl,
   C2_ticker_normalization.2 reportUp Perspective.bear
     (Option.some memoA) _ rfl⟩

/-! ## C3 and C9 -/

def metricsT : FinancialMetrics :=
  { ticker := "TSLA"
    company_name := "Tesla, Inc."
    current_price := 200 }

def synthA : SynthesizerOutput :=
  { ticker := "AAPL"
    recommendation := Recommendation.HOLD
    confidence_score := 1/2
    synthesis_summary := "Mixed evidence."
    key_caveats := ["check filings"] }

def recA : FinalRecommendation :=
  { ticker := "AAPL"
    recommendation := Recommendation.HOLD
    confidence_score := 1/2
    synthesis_summary := "Mixed evidence."
    key_caveats := ["check filings"]
    bull_memo := memoA
    bear_memo := memoB }

/-- On a parsed `SynthesizerOutput` whose recomposed record passes the
`FinalRecommendation` validation, `synthesize` succeeds with that
record. -/
theorem synthesize_some (bull bear : AnalystMemo)
    (metrics : FinancialMetrics) (s : SynthesizerOutput)
    (hv : FinalRecommendation.Valid
      { ticker := s.ticker
        recommendation := s.recommendation
        confidence_score := s.confidence_score
        synthesis_summary := s.synthesis_summary
        key_caveats := s.key_caveats
        bull_memo := bull
        bear_memo := bear }) :
    synthesize bull bear metrics (Option.some s) =
      Except.ok
        { ticker := s.ticker
          recommendation := s.recommendation
          confidence_score := s.confidence_score
          synthesis_summary := s.synthesis_summary
          key_caveats := s.key_caveats
          bull_memo := bull
          bear_memo := bear } := by
  unfold synthesize mkFinalRecommendation
  dsimp only
  rw [if_pos hv]

/-- The fixture `synthA` passes the `SynthesizerOutput` validation. -/
theorem synthA_valid : synthA.Valid := by
  unfold SynthesizerOutput.Valid synthA
  refine ⟨by norm_num, by norm_num, by decide, by decide, by decide⟩

/-- C3: for every pair of memos, metrics and successfully parsed
`SynthesizerOutput`, `synthesize` returns a `FinalRecommendation`
carrying the two memos verbatim, with recommendation, confidence,
summary and caveats taken from the `SynthesizerOutput`. -/
theorem C3_synthesize_composition (bull bear : AnalystMemo)
    (metrics : FinancialMetrics) (s : SynthesizerOutput)
    (hs : s.Valid) :
    synthesize bull bear metrics (Option.some s) =
      Except.ok
        { ticker := s.ticker
          recommendation := s.recommendation
          confidence_score := s.confidence_score
          synthesis_summary := s.synthesis_summary
          key_caveats := s.key_caveats
          bull_memo := bull
          bear_memo := bear } :=
  synthesize_some bull bear metrics s hs

theorem C3_synthesize_composition_witness :
    synthesize memoA memoB metricsT (Option.some synthA) =
      Except.ok recA :=
  C3_synthesize_composition memoA memoB metricsT synthA synthA_valid

/-- C9: `synthesize` copies the ticker the model produced in the
`SynthesizerOutput` into the `FinalRecommendation` and never overwrites
it with the caller-supplied metrics ticker; for some backend output the
resulting ticker differs from the metrics ticker. -/
theorem C9_synthesizer_ticker_not_overridden :
    (∀ (bull bear : AnalystMemo) (metrics : FinancialMetrics)
        (s : SynthesizerOutput) (f : FinalRecommendation),
      synthesize bull bear metrics (Option.some s) = Except.ok f →
      f.ticker = s.ticker) ∧
    (∃ (bull bear : AnalystMemo) (metrics : FinancialMetrics)
        (s : SynthesizerOutput) (f : FinalRecommendation),
      synthesize bull bear metrics (Option.some s) = Except.ok f ∧
      f.ticker ≠ metrics.ticker) := by
  constructor
  · intro bull bear metrics s f h
    unfold synthesize mkFinalRecommendation at h
    dsimp only at h
    by_cases hv : FinalRecommendation.Valid
        { ticker := s.ticker
          recommendation := s.recommendation
          confidence_score := s.confidence_score
          synthesis_summary := s.synthesis_summary
          key_caveats := s.key_caveats
          bull_memo := bull
          bear_memo := bear }
    · rw [if_pos hv] at h
      injection h with h
      rw [← h]
    · rw [if_neg hv] at h
      exact Except.noConfusion h
  · exact ⟨memoA, memoB, metricsT, synthA, recA,
      synthesize_some memoA memoB metricsT synthA synthA_valid,
      by decide⟩

theorem C9_synthesizer_ticker_not_overridden_witness :
    recA.ticker = synthA.ticker :=
  C9_synthesizer_ticker_not_overridden.1 memoA memoB metricsT synthA
    recA (synthesize_some memoA memoB metricsT synthA synthA_valid)

/-! ## C4, C7 and C10 -/

def infoFallback : Info :=
  [("currentPrice", PyVal.none), ("regularMarketPrice", PyVal.num 123.45)]

def reportFallback : ScoutReport :=
  { metrics :=
      { ticker := "T"
        company_name := "T"
        current_price := 123.45 }
    headlines := []
    fetch_timestamp := "ts" }

/-- C4: an empty payload, or one where both price fields come back as
`None`, makes `fetch_scout_report` raise the input-validity error;
otherwise the price comes from the fallback chain: a present
`currentPrice` wins, and when `currentPrice` is `None` the
`regularMarketPrice` value is used. -/
theorem C4_price_validation_and_fallback :
    (∀ (t now : String) (rn : List RawNewsItem),
      fetch_scout_report t ([] : Info) rn now =
        Except.error (FetchError.invalidTicker t)) ∧
    (∀ (t now : String) (info : Info) (rn : List RawNewsItem),
      Info.get info "currentPrice" = PyVal.none →
      Info.get info "regularMarketPrice" = PyVal.none →
      fetch_scout_report t info rn now =
        Except.error (FetchError.invalidTicker t)) ∧
    (∀ (t now : String) (info : Info) (rn : List RawNewsItem)
        (r : ScoutReport) (q : ℚ),
      Info.get info "currentPrice" = PyVal.none →
      Info.get info "regularMarketPrice" = PyVal.num q →
      fetch_scout_report t info rn now = Except.ok r →
      r.metrics.current_price = q) ∧
    (∀ (t now : String) (info : Info) (rn : List RawNewsItem)
        (r : ScoutReport) (q : ℚ),
      Info.get info "currentPrice" = PyVal.num q → q ≠ 0 →
      fetch_scout_report t info rn now = Except.ok r →
      r.metrics.current_price = q) := by
  refine ⟨fun t now rn => ?_, fun t now info rn h1 h2 => ?_,
    fun t now info rn r q h1 h2 h => ?_, fun t now info rn r q h1 h2 h => ?_⟩
  · exact fetch_scout_report_guard (Or.inl rfl)
  · exact fetch_scout_report_guard (Or.inr ⟨h2, h1⟩)
  · have h3 := (fetch_scout_report_ok h).2.1
    rw [price_fallback_of_cp_none h1 h2] at h3
    injection h3 with h3
    exact h3.symm
  · have h3 := (fetch_scout_report_ok h).2.1
    rw [price_fallback_of_cp_truthy h1 h2] at h3
    injection h3 with h3
    exact h3.symm

theorem C4_price_validation_and_fallback_witness :
    fetch_scout_report "T" ([] : Info) [] "ts" =
      Except.error (FetchError.invalidTicker "T") ∧
    reportFallback.metrics.current_price = 123.45 :=
  ⟨C4_price_validation_and_fallback.1 "T" "ts" [],
   C4_price_validation_and_fallback.2.2.1 "T" "ts" infoFallback []
     reportFallback 123.45 rfl rfl rfl⟩

def infoDte : Info :=
  [("currentPrice", PyVal.num 10), ("debtToEquity", PyVal.num 152.411)]

def reportDte : ScoutReport :=
  { metrics :=
      { ticker := "T"
        company_name := "T"
        current_price := 10
        debt_to_equity := Option.some (152.411 / 100) }
    headlines := []
    fetch_timestamp := "ts" }

/-- C7: on a successful fetch, a present raw `debtToEquity` value is
stored divided by 100, and an absent raw value is stored as null. -/
theorem C7_debt_to_equity_conversion (t now : String) (info : Info)
    (rn : List RawNewsItem) (r : ScoutReport)
    (h : fetch_scout_report t info rn now = Except.ok r) :
    (∀ q : ℚ, Info.get info "debtToEquity" = PyVal.num q →
      r.metrics.debt_to_equity = Option.some (q / 100)) ∧
    (Info.get info "debtToEquity" = PyVal.none →
      r.metrics.debt_to_equity = Option.none) := by
  have hd := (fetch_scout_report_ok h).2.2.1
  constructor
  · intro q hq
    rw [hq] at hd
    injection hd with hd
    exact hd.symm
  · intro hq
    rw [hq] at hd
    injection hd with hd
    exact hd.symm

theorem C7_debt_to_equity_conversion_witness :
    reportDte.metrics.debt_to_equity = Option.some (152.411 / 100) :=
  (C7_debt_to_equity_conversion "T" "ts" infoDte [] reportDte rfl).1
    152.411 rfl

/-- C10: the price fallback selects by truthiness, not presence: a
present but falsy `currentPrice` value makes the chain use
`regularMarketPrice`; and with `currentPrice = 0.0` present and
`regularMarketPrice` absent, the initial validity check passes but the
second, defensive could-not-determine-price guard fires. -/
theorem C10_price_fallback_truthiness :
    (∀ (info : Info) (v : PyVal),
      List.lookup "currentPrice" info = Option.some v →
      v.truthy = false →
      price_fallback info = Info.get info "regularMarketPrice") ∧
    fetch_scout_report "XYZ" [("currentPrice", PyVal.num 0)] [] "ts" =
      Except.error (FetchError.noPrice "XYZ") := by
  constructor
  · intro info v hl hv
    have hg : Info.get info "currentPrice" = v := by
      simp [Info.get, hl]
    simp [price_fallback, pyOr, hg, hv]
  · rfl

theorem C10_price_fallback_truthiness_witness :
    price_fallback
        [("currentPrice", PyVal.num 0), ("regularMarketPrice", PyVal.num 5)] =
      Info.get
        [("currentPrice", PyVal.num 0), ("regularMarketPrice", PyVal.num 5)]
        "regularMarketPrice" :=
  C10_price_fallback_truthiness.1 _ (PyVal.num 0) rfl (by decide)

/-! ## C5 -/

def rnA : List RawNewsItem :=
  [{ title := Option.some "A", publisher := Option.some "PA" },
   { title := Option.none },
   { title := Option.some "" },
   { title := Option.some "B" },
   { title := Option.some "C", link := Option.some "lc" },
   { title := Option.some "D" },
   { title := Option.some "E" }]

def reportNews : ScoutReport :=
  { metrics :=
      { ticker := "AAPL"
        company_name := "Apple Inc."
        current_price := 123 }
    headlines :=
      [{ title := "A", publisher := "PA" },
       { title := "B", publisher := "" },
       { title := "C", publisher := "", link := Option.some "lc" }]
    fetch_timestamp := "ts" }

/-- C5: the headline list of a fetched report is obtained by taking
the first `MAX_HEADLINES` (= 5) raw items in source order and dropping
the ones without a non-empty title; hence it is built by
take-then-filter-then-map, no resulting title is empty, its length is
at most the configured maximum and source order is preserved. -/
theorem C5_headline_filtering :
    (∀ (t now : String) (info : Info) (rn : List RawNewsItem)
        (r : ScoutReport),
      fetch_scout_report t info rn now = Except.ok r →
      r.headlines = buildHeadlines rn MAX_HEADLINES) ∧
    (∀ rn : List RawNewsItem,
      buildHeadlines rn MAX_HEADLINES =
        ((rn.take MAX_HEADLINES).filter RawNewsItem.titleTruthy).map
          (fun i =>
            ({ title := i.title.getD ""
               publisher := i.publisher.getD ""
               link := i.link } : NewsHeadline))) ∧
    (∀ rn : List RawNewsItem,
      (buildHeadlines rn MAX_HEADLINES).length ≤ MAX_HEADLINES) ∧
    (∀ (rn : List RawNewsItem) (h : NewsHeadline),
      h ∈ buildHeadlines rn MAX_HEADLINES → h.title ≠ "") ∧
    (∀ rn : List RawNewsItem,
      List.Sublist ((buildHeadlines rn MAX_HEADLINES).map NewsHeadline.title)
        ((rn.take MAX_HEADLINES).map (fun i => i.title.getD ""))) ∧
    MAX_HEADLINES = 5 := by
  refine ⟨fun t now info rn r h => (fetch_scout_report_ok h).2.2.2.1,
    fun rn => rfl, fun rn => ?_, fun rn h hmem => ?_, fun rn => ?_, rfl⟩
  · unfold buildHeadlines
    rw [List.length_map]
    exact le_trans (List.length_filter_le _ _)
      (by rw [List.length_take]; exact min_le_left _ _)
  · simp only [buildHeadlines, List.mem_map, List.mem_filter] at hmem
    obtain ⟨i, ⟨-, ht⟩, rfl⟩ := hmem
    unfold RawNewsItem.titleTruthy at ht
    cases hti : i.title with
    | none => rw [hti] at ht; cases ht
    | some s =>
        rw [hti] at ht
        simpa [hti] using of_decide_eq_true ht
  · unfold buildHeadlines
    rw [List.map_map]
    exact List.Sublist.map _ (List.filter_sublist _)

theorem C5_headline_filtering_witness :
    reportNews.headlines = buildHeadlines rnA MAX_HEADLINES :=
  C5_headline_filtering.1 "aapl" "ts" infoA rnA reportNews rfl

/-! ## C6 and C8 -/

def memoFive : AnalystMemo :=
  { perspective := Perspective.bull
    ticker := "AAPL"
    summary := "Steady compounder."
    key_points := ["p1", "p2", "p3", "p4", "p5"]
    risk_reward_assessment := "Fair."
    confidence_in_thesis := 1/2 }

/-- C6: AnalystMemo validation enforces its bounds with inclusive
boundaries: confidence 1.5 is rejected, 2 key points are rejected,
6 key points are rejected, exactly 5 key points are accepted, and any
confidence within [0, 1] is accepted. -/
theorem C6_schema_boundaries (m : AnalystMemo)
    (hsum : m.summary.length ≤ 500)
    (hrra : m.risk_reward_assessment.length ≤ 300) :
    (m.confidence_in_thesis = 3/2 →
      mkAnalystMemo m = Except.error "ValidationError: AnalystMemo") ∧
    (m.key_points.length = 2 →
      mkAnalystMemo m = Except.error "ValidationError: AnalystMemo") ∧
    (m.key_points.length = 6 →
      mkAnalystMemo m = Except.error "ValidationError: AnalystMemo") ∧
    (m.key_points.length = 5 → 0 ≤ m.confidence_in_thesis →
      m.confidence_in_thesis ≤ 1 → mkAnalystMemo m = Except.ok m) ∧
    (3 ≤ m.key_points.length → m.key_points.length ≤ 5 →
      0 ≤ m.confidence_in_thesis → m.confidence_in_thesis ≤ 1 →
      mkAnalystMemo m = Except.ok m) := by
  refine ⟨fun h1 => ?_, fun h1 => ?_, fun h1 => ?_,
    fun h1 h2 h3 => ?_, fun h1 h2 h3 h4 => ?_⟩
  · have hv : ¬ m.Valid := by
      intro hv
      obtain ⟨-, -, -, -, -, hc⟩ := hv
      rw [h1] at hc
      norm_num at hc
    unfold mkAnalystMemo
    rw [if_neg hv]
  · have hv : ¬ m.Valid := by
      intro hv
      obtain ⟨-, hge, -, -, -, -⟩ := hv
      omega
    unfold mkAnalystMemo
    rw [if_neg hv]
  · have hv : ¬ m.Valid := by
      intro hv
      obtain ⟨-, -, hle, -, -, -⟩ := hv
      omega
    unfold mkAnalystMemo
    rw [if_neg hv]
  · have hv : m.Valid := by
      unfold AnalystMemo.Valid
      exact ⟨hsum, by omega, by omega, hrra, h2, h3⟩
    unfold mkAnalystMemo
    rw [if_pos hv]
  · have hv : m.Valid := by
      unfold AnalystMemo.Valid
      exact ⟨hsum, h1, h2, hrra, h3, h4⟩
    unfold mkAnalystMemo
    rw [if_pos hv]

theorem C6_schema_boundaries_witness :
    mkAnalystMemo memoFive = Except.ok memoFive :=
  (C6_schema_boundaries memoFive (by decide) (by decide)).2.2.2.1 rfl
    (by norm_num [memoFive]) (by norm_num [memoFive])

def memoEmptyPoint : AnalystMemo :=
  { perspective := Perspective.bear
    ticker := "AAPL"
    summary := "Thin thesis."
    key_points := ["", "debt", "hype"]
    risk_reward_assessment := "Weak."
    confidence_in_thesis := 1/2 }

def synthEmptyCaveat : SynthesizerOutput :=
  { ticker := "AAPL"
    recommendation := Recommendation.HOLD
    confidence_score := 1/2
    synthesis_summary := "Mixed."
    key_caveats := [""] }

theorem memoEmptyPoint_valid : memoEmptyPoint.Valid := by
  unfold AnalystMemo.Valid memoEmptyPoint
  refine ⟨by decide, by decide, by decide, by decide, by norm_num,
    by norm_num⟩

theorem synthEmptyCaveat_valid : synthEmptyCaveat.Valid := by
  unfold SynthesizerOutput.Valid synthEmptyCaveat
  refine ⟨by norm_num, by norm_num, by decide, by decide, by decide⟩

/-- C8 counterexample: an `AnalystMemo` whose `key_points` contains an
empty string, and a `SynthesizerOutput` whose `key_caveats` contains an
empty string, both pass schema validation, contrary to the claim that
such constructions fail. -/
theorem C8_counterexample_empty_items :
    mkAnalystMemo memoEmptyPoint = Except.ok memoEmptyPoint ∧
    mkSynthesizerOutput synthEmptyCaveat = Except.ok synthEmptyCaveat := by
  constructor
  · unfold mkAnalystMemo
    rw [if_pos memoEmptyPoint_valid]
  · unfold mkSynthesizerOutput
    rw [if_pos synthEmptyCaveat_valid]

/-- C8 (amended): schema validation constrains `key_points` and
`key_caveats` only through their list lengths; the item strings,
including empty ones, never affect the outcome. -/
theorem C8_item_contents_not_validated :
    (∀ (m : AnalystMemo) (kp : List String),
      kp.length = m.key_points.length →
      (mkAnalystMemo { m with key_points := kp }).isOk =
        (mkAnalystMemo m).isOk) ∧
    (∀ (s : SynthesizerOutput) (kc : List String),
      kc.length = s.key_caveats.length →
      (mkSynthesizerOutput { s with key_caveats := kc }).isOk =
        (mkSynthesizerOutput s).isOk) := by
  constructor
  · intro m kp hlen
    have hiff : ({ m with key_points := kp } : AnalystMemo).Valid ↔
        m.Valid := by
      unfold AnalystMemo.Valid
      dsimp only
      rw [hlen]
    unfold mkAnalystMemo
    by_cases hv : m.Valid
    · rw [if_pos hv, if_pos (hiff.mpr hv)]
      rfl
    · rw [if_neg hv, if_neg (fun hh => hv (hiff.mp hh))]
  · intro s kc hlen
    have hiff : ({ s with key_caveats := kc } : SynthesizerOutput).Valid ↔
        s.Valid := by
      unfold SynthesizerOutput.Valid
      dsimp only
      rw [hlen]
    unfold mkSynthesizerOutput
    by_cases hv : s.Valid
    · rw [if_pos hv, if_pos (hiff.mpr hv)]
      rfl
    · rw [if_neg hv, if_neg (fun hh => hv (hiff.mp hh))]

theorem C8_item_contents_not_validated_witness :
    (mkAnalystMemo
        { memoFive with key_points := ["", "", "", "", ""] }).isOk =
      (mkAnalystMemo memoFive).isOk :=
  C8_item_contents_not_validated.1 memoFive ["", "", "", "", ""] rfl

end KWealth
